import Mathlib

/-!
Shallow embedding of the `ad-watcher-bot` task engine (`src/main.py`) and
proofs about its control loop, stall policy, video-progress poll, submit
control selection, navigation, API-mode loop and CLI exit codes.
-/

namespace AdWatcher

/-! ## Substring containment (the Python `in` test on strings) -/

/-- `listPrefixOf pat s` is true when `pat` is a prefix of `s`. -/
def listPrefixOf : List Char → List Char → Bool
  | [], _ => true
  | _ :: _, [] => false
  | a :: as, b :: bs => a == b && listPrefixOf as bs

/-- `listInfixOf pat s` is true when `pat` occurs contiguously inside `s`. -/
def listInfixOf (pat : List Char) : List Char → Bool
  | [] => listPrefixOf pat []
  | c :: rest => listPrefixOf pat (c :: rest) || listInfixOf pat rest

/-- The Python `pat in s` substring test. -/
def strContains (s pat : String) : Bool := listInfixOf pat.toList s.toList

/-- The Python `s.lower()` transformation (ASCII lowering). -/
def strToLower (s : String) : String := ⟨s.data.map Char.toLower⟩

/-! ## Task engine loop state (`start_tasks`, src/main.py lines 969-1111)

The mutable variables of the loop: `stalled_attempts`, `last_tasks_remaining`
(`-1` sentinel for "no prior reading"), `tasks_completed`.  `navRecoveries`
counts the recovery calls to `navigate_to_task_list` issued from the
iteration-level exception handler (lines 1100-1104). -/

structure LoopState where
  stall : Nat
  last : Int
  completed : Nat
  navRecoveries : Nat
  deriving Repr, DecidableEq

/-- The initial loop state: `stalled_attempts = 0`, `last_tasks_remaining = -1`,
`tasks_completed = 0`. -/
def initState : LoopState := ⟨0, -1, 0, 0⟩

/-- `max_stalled_attempts` (line 974). -/
def maxStalledAttempts : Nat := 3

/-- The stall classification of one reading (lines 1007-1012):
`if last_tasks_remaining != -1 and tasks_remaining >= last_tasks_remaining:
stalled_attempts += 1 else: stalled_attempts = 0`. -/
def classifyStall (tasksRemaining : Nat) (lastTasksRemaining : Int)
    (stalledAttempts : Nat) : Nat :=
  if lastTasksRemaining ≠ -1 ∧ (tasksRemaining : Int) ≥ lastTasksRemaining then
    stalledAttempts + 1
  else
    0

/-- Outcomes of the task-selection/dispatch phase of one iteration
(lines 1023-1093): the code raises on every branch that is not a completed
video sub-flow, and the sub-flow itself re-raises its errors (line 1143). -/
inductive TaskPhase where
  /-- `/task/video/` URL reached and `handle_video_and_submit` succeeded. -/
  | videoOk
  /-- `/myTask` URL, button said "submit", video URL reached, sub-flow ok. -/
  | myTaskSubmitVideoOk
  /-- No valid task items with thumbnails were found (line 1039). -/
  | noValidItems
  /-- `handle_video_and_submit` raised (propagated, line 1143). -/
  | subflowErr (msg : String)
  /-- `/myTask` path: clicking "Submit" did not reach the video URL (line 1077). -/
  | myTaskSubmitNoVideo
  /-- `/myTask` path: the label of the button was not "submit" (line 1079). -/
  | myTaskOtherButton (label : String)
  /-- The post-click URL matched neither pattern (line 1084). -/
  | otherUrl (url : String)
  deriving Repr, DecidableEq

/-- The raw task phase as exception-raising code: `Except.error` models a
Python exception reaching the outer `except` of the iteration (line 1095). -/
def taskPhaseRaw : TaskPhase → Except String Unit
  | .videoOk => .ok ()
  | .myTaskSubmitVideoOk => .ok ()
  | .noValidItems => .error "No valid task items with thumbnails found"
  | .subflowErr msg => .error msg
  | .myTaskSubmitNoVideo =>
      .error "Did not navigate to video page after clicking Submit on in-progress task."
  | .myTaskOtherButton label =>
      .error ("Button in in-progress task was not Submit, but " ++ label)
  | .otherUrl url => .error ("Unexpected URL after task click: " ++ url)

/-- The environment input of one loop iteration: either the remaining-count read
failed (caught at lines 994-999), or it yielded `n` and the subsequent task
phase behaved as `p`. -/
inductive IterInput where
  | readFail
  | readOk (n : Nat) (p : TaskPhase)
  deriving Repr, DecidableEq

/-- The result of one iteration body. -/
inductive StepRes where
  /-- `tasks_remaining == 0`: `return False if tasks_completed == 0 else True`. -/
  | exitQuota (completed : Nat)
  /-- `stalled_attempts >= max_stalled_attempts` after classification: `break`. -/
  | exitStall (stall completed : Nat)
  /-- The iteration finished (`continue` or fall-through) with a new state. -/
  | next (s : LoopState)
  deriving Repr, DecidableEq

/-- One iteration of the `start_tasks` loop body (lines 981-1104), with the
outer `except` (lines 1095-1104) already applied: a read failure increments
the stall counter and continues; otherwise the zero-check, the stall
classification, the ceiling check, and the task phase run in order, and any
exception from the task phase is caught, counted as a stalled attempt, and
followed by a recovery navigation. -/
def loopStep (s : LoopState) (inp : IterInput) : StepRes :=
  match inp with
  | .readFail => .next { s with stall := s.stall + 1 }
  | .readOk n p =>
    if n = 0 then
      .exitQuota s.completed
    else
      let stall1 := classifyStall n s.last s.stall
      if maxStalledAttempts ≤ stall1 then
        .exitStall stall1 s.completed
      else
        match taskPhaseRaw p with
        | .ok () =>
            .next { stall := stall1, last := (n : Int),
                    completed := s.completed + 1,
                    navRecoveries := s.navRecoveries }
        | .error _ =>
            .next { stall := stall1 + 1, last := (n : Int),
                    completed := s.completed,
                    navRecoveries := s.navRecoveries + 1 }

/-- How a run of the loop ended. -/
inductive LoopExit where
  /-- Exit at the zero-check (line 1004). -/
  | quota (completed : Nat)
  /-- Exit because the stall ceiling was reached (line 1019 `break`, or the
  `while` condition itself). -/
  | stallAbort (stall completed : Nat)
  /-- The finite input trace ran out while the loop was still iterating. -/
  | running (s : LoopState)
  deriving Repr, DecidableEq

/-- The `while stalled_attempts < max_stalled_attempts` loop (line 978) over a
finite trace of iteration inputs. -/
def runLoop (s : LoopState) : List IterInput → LoopExit
  | [] =>
    if maxStalledAttempts ≤ s.stall then
      .stallAbort s.stall s.completed
    else
      .running s
  | inp :: rest =>
    if maxStalledAttempts ≤ s.stall then
      .stallAbort s.stall s.completed
    else
      match loopStep s inp with
      | .exitQuota c => .quota c
      | .exitStall st c => .stallAbort st c
      | .next s' => runLoop s' rest

/-- The return statements of `start_tasks`: line 1004
`return False if tasks_completed == 0 else True` at the quota exit, and
lines 1106-1111 `return False` / `return True` after the loop, guarded by
`stalled_attempts >= max_stalled_attempts`.  `none` when the trace ran out. -/
def exitReturn : LoopExit → Option Bool
  | .quota c => some (if c = 0 then false else true)
  | .stallAbort st _ => some (if maxStalledAttempts ≤ st then false else true)
  | .running _ => none

/-- `start_tasks` over a finite input trace. -/
def start_tasks (inps : List IterInput) : Option Bool :=
  exitReturn (runLoop initState inps)

/-! ## Video-progress poll (`monitor_video_progress`, lines 1299-1354)

One poll per second; each poll either parses "Currently watched N seconds"
to `some n`, or yields `none` (no status element, regex mismatch, or an
in-poll error). -/

/-- `max_wait_time = 600` (line 1300). -/
def maxWaitTime : Nat := 600

/-- The polling loop (lines 1307-1354): on a parsed reading `n`,
`watched_seconds` is set to `n` and, when `n ≥ required`, the function
returns `required_seconds` at once; on timeout it returns `required` when
the requirement was met and the last `watched_seconds` otherwise.  The
second component is the suffix of readings never polled. -/
def monitorLoop (required watched : Nat) :
    Nat → List (Option Nat) → Nat × List (Option Nat)
  | 0, rs => ((if required ≤ watched then required else watched), rs)
  | fuel + 1, [] => monitorLoop required watched fuel []
  | fuel + 1, r :: rest =>
    match r with
    | some n =>
        if required ≤ n then (required, rest)
        else monitorLoop required n fuel rest
    | none => monitorLoop required watched fuel rest

/-- `monitor_video_progress` with the discovered (or default) requirement
`required`, run against a trace of per-second poll readings. -/
def monitor_video_progress (required : Nat) (rs : List (Option Nat)) : Nat :=
  (monitorLoop required 0 maxWaitTime rs).1

/-! ## Navigation to the task list (`navigate_to_task_list`, lines 1113-1125) -/

/-- The web-driver state the navigation touches: the current URL and the
number of `driver.get` navigation calls issued so far. -/
structure NavState where
  currentUrl : String
  navCalls : Nat
  deriving Repr, DecidableEq

/-- `navigate_to_task_list` (lines 1113-1125): if `"taskList" in
self.driver.current_url`, return immediately; otherwise issue
`self.driver.get(self.task_url)` with the task-list URL captured at session
start (line 928, which loops until `"taskList" in self.task_url`). -/
def navigate_to_task_list (taskUrl : String) (s : NavState) : NavState :=
  if strContains s.currentUrl "taskList" then s
  else { currentUrl := taskUrl, navCalls := s.navCalls + 1 }

/-! ## Submit-control selection (`submit_completed_task`, lines 1367-1453)

A page is a list of controls in document order; the web driver resolves
CSS selectors to controls through the `cssHits` field, while the XPath
text selectors the code uses have their textual semantics spelled out. -/

structure Control where
  tag : String
  text : String
  /-- Texts of descendant span elements. -/
  spanTexts : List String
  /-- Texts of descendant div elements. -/
  divTexts : List String
  typeAttr : String
  displayed : Bool
  enabled : Bool
  /-- CSS selector strings the driver resolves to this control. -/
  cssHits : List String
  deriving Repr, DecidableEq

/-- The selector shapes occurring in `submit_selectors` (lines 1373-1401). -/
inductive Selector where
  /-- `//tag[contains(text(), s)]`. -/
  | xpathTagTextContains (tag s : String)
  /-- `//span[contains(text(), s)]/ancestor::button`. -/
  | xpathSpanAncestorButton (s : String)
  /-- `//div[contains(text(), s)]/ancestor::button`. -/
  | xpathDivAncestorButton (s : String)
  /-- `//tag[@type=submit]` (type attribute equal to submit). -/
  | xpathTagTypeSubmit (tag : String)
  /-- A CSS selector, resolved by the driver. -/
  | css (s : String)
  deriving Repr, DecidableEq

/-- Whether a selector matches a control. -/
def selMatches : Selector → Control → Bool
  | .xpathTagTextContains tag s, c => c.tag == tag && strContains c.text s
  | .xpathSpanAncestorButton s, c =>
      c.tag == "button" && c.spanTexts.any (fun t => strContains t s)
  | .xpathDivAncestorButton s, c =>
      c.tag == "button" && c.divTexts.any (fun t => strContains t s)
  | .xpathTagTypeSubmit tag, c => c.tag == tag && c.typeAttr == "submit"
  | .css s, c => c.cssHits.contains s

/-- `submit_selectors` (lines 1373-1401), in source order: exact-text
matches first, then Van-UI and class-based selectors, then generic
submit-like patterns. -/
def submit_selectors : List Selector :=
  [ .xpathTagTextContains "button" "Submit Complete Task",
    .xpathSpanAncestorButton "Submit Complete Task",
    .xpathDivAncestorButton "Submit Complete Task",
    .css ".van-button .van-button__text[text()=\x27Submit Complete Task\x27]/..",
    .css ".van-button:has(.van-button__text:contains(\x27Submit Complete Task\x27))",
    .xpathTagTextContains "button" "Submit Complete",
    .xpathTagTextContains "button" "Complete Task",
    .xpathTagTextContains "button" "Submit Task",
    .css ".button-container .mybutton",
    .css ".van-button.mybutton",
    .xpathTagTextContains "button" "Submit",
    .xpathTagTextContains "button" "submit",
    .xpathTagTextContains "button" "SUBMIT",
    .xpathTagTypeSubmit "input",
    .xpathTagTypeSubmit "button",
    .css ".submit-button",
    .css ".submit-btn",
    .css "[class*=\x27submit\x27]" ]

/-- The inner element scan (lines 1416-1426): take the first matched
element that is displayed and enabled and whose lowercased label does not
contain "reset" (such elements are skipped with `continue`). -/
def pickControl : List Control → Option Control
  | [] => none
  | c :: rest =>
    if c.displayed && c.enabled then
      if strContains (strToLower c.text) "reset" then pickControl rest
      else some c
    else pickControl rest

/-- The selector scan (lines 1406-1433): try each selector in order and
return the first acceptable element any of them yields. -/
def findSubmitControl (page : List Control) : List Selector → Option Control
  | [] => none
  | sel :: rest =>
    match pickControl (page.filter (fun c => selMatches sel c)) with
    | some c => some c
    | none => findSubmitControl page rest

/-- The button search of `submit_completed_task` (`none` models the
"Submit Complete Task button not found" exception at line 1453). -/
def submit_completed_task (page : List Control) : Option Control :=
  findSubmitControl page submit_selectors

/-! ## Helper lemmas about the loop -/

/-- A `StepRes.exitStall` is only produced at or above the ceiling. -/
theorem loopStep_exitStall_ge {s : LoopState} {inp : IterInput} {st c : Nat}
    (h : loopStep s inp = .exitStall st c) : maxStalledAttempts ≤ st := by
  cases inp with
  | readFail => simp [loopStep] at h
  | readOk n p =>
    by_cases h0 : n = 0
    · simp [loopStep, h0] at h
    · simp only [loopStep, h0, if_false] at h
      split at h
      · next hle => cases h; exact hle
      · split at h <;> simp_all

/-- Once the stall counter has reached the ceiling, the loop exits at once. -/
theorem runLoop_stall_dominates (s : LoopState) (inps : List IterInput)
    (h : maxStalledAttempts ≤ s.stall) :
    runLoop s inps = .stallAbort s.stall s.completed := by
  cases inps <;> simp [runLoop, h]

/-- Every run of the loop ends in one of exactly three shapes: still
iterating with the counter under the ceiling (finite trace exhausted), the
quota exit, or the stall abort with the counter at or above the ceiling. -/
theorem runLoop_cases (s : LoopState) (inps : List IterInput) :
    (∃ s', runLoop s inps = .running s' ∧ s'.stall < maxStalledAttempts) ∨
    (∃ c, runLoop s inps = .quota c) ∨
    (∃ st c, runLoop s inps = .stallAbort st c ∧ maxStalledAttempts ≤ st) := by
  induction inps generalizing s with
  | nil =>
    by_cases h : maxStalledAttempts ≤ s.stall
    · exact Or.inr (Or.inr ⟨s.stall, s.completed, by simp [runLoop, h], h⟩)
    · exact Or.inl ⟨s, by simp [runLoop, h], Nat.lt_of_not_le h⟩
  | cons inp rest ih =>
    by_cases h : maxStalledAttempts ≤ s.stall
    · exact Or.inr (Or.inr ⟨s.stall, s.completed, by simp [runLoop, h], h⟩)
    · cases hstep : loopStep s inp with
      | exitQuota c =>
        exact Or.inr (Or.inl ⟨c, by simp [runLoop, h, hstep]⟩)
      | exitStall st c =>
        exact Or.inr (Or.inr ⟨st, c, by simp [runLoop, h, hstep],
          loopStep_exitStall_ge hstep⟩)
      | next s' =>
        have : runLoop s (inp :: rest) = runLoop s' rest := by
          simp [runLoop, h, hstep]
        rw [this]
        exact ih s'

/-- A stall abort always carries a counter at or above the ceiling. -/
theorem runLoop_stallAbort_ge {s : LoopState} {inps : List IterInput}
    {st c : Nat} (h : runLoop s inps = .stallAbort st c) :
    maxStalledAttempts ≤ st := by
  rcases runLoop_cases s inps with ⟨s', h', _⟩ | ⟨c', h'⟩ | ⟨st', c', h', hge⟩ <;>
    rw [h'] at h <;> cases h
  exact hge

/-! ## Claim theorems -/

/-- C1 (counterexample): the claim says a stall abort returns a value
reflecting `tasksCompleted`.  On the trace [read 5/task ok, read 5/task
error, read 5/task error] the loop aborts on the stall ceiling with
`tasksCompleted = 1`, yet `start_tasks` returns `false`, not `true`. -/
theorem start_tasks_stall_return_ignores_completed :
    runLoop initState
        [.readOk 5 .videoOk, .readOk 5 .noValidItems, .readOk 5 .noValidItems]
      = .stallAbort 3 1 ∧
    start_tasks
        [.readOk 5 .videoOk, .readOk 5 .noValidItems, .readOk 5 .noValidItems]
      = some false :=
  ⟨rfl, rfl⟩

/-- C1 (amended): `start_tasks` returns, at the quota exit
(`tasksRemaining = 0`), whether at least one task was completed in this
invocation; but when the loop aborts on the stall ceiling it returns `false`
unconditionally, regardless of the `tasksCompleted` accumulated before the
abort. -/
theorem start_tasks_return_value (inps : List IterInput) :
    (∀ c, runLoop initState inps = .quota c →
      start_tasks inps = some (decide (1 ≤ c))) ∧
    (∀ st c, runLoop initState inps = .stallAbort st c →
      start_tasks inps = some false) := by
  constructor
  · intro c h
    unfold start_tasks
    rw [h]
    cases c <;> simp [exitReturn]
  · intro st c h
    unfold start_tasks
    rw [h]
    simp [exitReturn, runLoop_stallAbort_ge h]

/-- Witness for C1: instantiating the amended theorem on the quota-exit
trace [read 0] and the stall-abort trace with two completed-free failed
iterations. -/
theorem start_tasks_return_value_witness :
    start_tasks [.readOk 0 .videoOk] = some false ∧
    start_tasks [.readOk 6 .videoOk, .readOk 0 .videoOk] = some true ∧
    start_tasks [.readOk 5 .noValidItems, .readOk 5 .noValidItems] = some false :=
  ⟨(start_tasks_return_value [.readOk 0 .videoOk]).1 0 rfl,
   (start_tasks_return_value [.readOk 6 .videoOk, .readOk 0 .videoOk]).1 1 rfl,
   (start_tasks_return_value
     [.readOk 5 .noValidItems, .readOk 5 .noValidItems]).2 3 0 rfl⟩

/-- C2: the stall counter update is the pure function `classifyStall` of
`(tasksRemaining, lastTasksRemaining, currentStalledAttempts)`: on the first
reading (`lastTasksRemaining = -1`) it is 0; when the reading did not
decrease it is the old counter plus 1; when it decreased it is 0; and an
iteration whose remaining-count read errors increments the counter by 1. -/
theorem classifyStall_spec :
    (∀ (n st : Nat), classifyStall n (-1) st = 0) ∧
    (∀ (n : Nat) (last : Int) (st : Nat), last ≠ -1 → last ≤ (n : Int) →
      classifyStall n last st = st + 1) ∧
    (∀ (n : Nat) (last : Int) (st : Nat), (n : Int) < last →
      classifyStall n last st = 0) ∧
    (∀ s : LoopState, loopStep s .readFail = .next { s with stall := s.stall + 1 }) := by
  refine ⟨?_, ?_, ?_, ?_⟩
  · intro n st
    simp [classifyStall]
  · intro n last st hne hle
    simp [classifyStall, hne, hle]
  · intro n last st hlt
    have : ¬ (last ≠ -1 ∧ (n : Int) ≥ last) := by
      rintro ⟨_, hge⟩
      omega
    simp [classifyStall, this]
  · intro s
    rfl

/-- Witness for C2: the three classification arms and the read-error rule at
concrete inputs. -/
theorem classifyStall_spec_witness :
    classifyStall 5 (-1) 2 = 0 ∧
    classifyStall 5 5 1 = 2 ∧
    classifyStall 4 7 1 = 0 ∧
    loopStep initState .readFail = .next { initState with stall := 1 } :=
  ⟨classifyStall_spec.1 5 2,
   classifyStall_spec.2.1 5 5 1 (by decide) (by decide),
   classifyStall_spec.2.2.1 4 7 1 (by decide),
   classifyStall_spec.2.2.2 initState⟩

/-- C3 (counterexample): the claim says that with readings `[7,7,4,4,4]`
the loop aborts immediately after the 5th reading.  On the trace that
realises the stalled sequence the spec itself gives, `[0,1,0,1,2]` (every task attempt
succeeding), the loop has consumed all five readings and is still running,
with `stalledAttempts = 2` — no abort has occurred. -/
theorem stall_exit_not_after_fifth_reading :
    runLoop initState
        [.readOk 7 .videoOk, .readOk 7 .videoOk, .readOk 4 .videoOk,
         .readOk 4 .videoOk, .readOk 4 .videoOk]
      = .running ⟨2, 4, 5, 0⟩ := rfl

/-- C3 (amended): the loop aborts exactly when the stall counter reaches the
ceiling 3.  With readings `[5,5,...]` from the sentinel and no task ever
completing, each failed attempt also counts, so the loop aborts with
`stalledAttempts = 3` and returns `false` after consuming only the first two
readings, whatever readings follow.  With every task attempt succeeding,
readings `[7,7,4,4,4]` leave the stalled sequence at `[0,1,0,1,2]` and a 6th
non-decreasing reading is what aborts the loop; likewise four consecutive
readings `[5,5,5,5]` abort it with `stalledAttempts = 3`. -/
theorem stall_exit_ceiling :
    (∀ rest : List IterInput,
      runLoop initState ([.readOk 5 .noValidItems, .readOk 5 .noValidItems] ++ rest)
        = .stallAbort 3 0 ∧
      start_tasks ([.readOk 5 .noValidItems, .readOk 5 .noValidItems] ++ rest)
        = some false) ∧
    runLoop initState
        [.readOk 7 .videoOk, .readOk 7 .videoOk, .readOk 4 .videoOk,
         .readOk 4 .videoOk, .readOk 4 .videoOk, .readOk 4 .videoOk]
      = .stallAbort 3 5 ∧
    runLoop initState
        [.readOk 5 .videoOk, .readOk 5 .videoOk, .readOk 5 .videoOk,
         .readOk 5 .videoOk]
      = .stallAbort 3 3 := by
  refine ⟨?_, rfl, rfl⟩
  intro rest
  have h2 : runLoop initState
      ([.readOk 5 .noValidItems, .readOk 5 .noValidItems] ++ rest)
      = runLoop ⟨3, 5, 0, 2⟩ rest := rfl
  have h3 := runLoop_stall_dominates ⟨3, 5, 0, 2⟩ rest (by decide)
  refine ⟨h2.trans h3, ?_⟩
  unfold start_tasks
  rw [h2, h3]
  rfl

/-- C7: no exception escapes the task-loop body.  Every task-phase error is
caught, counted against the stall budget, and followed by a recovery
navigation (the iteration continues rather than propagating); and every run
of the loop halts either at the quota exit, or at the stall abort with the
counter at the ceiling, or is still iterating because its finite input trace
ran out — never in any other way. -/
theorem loop_exception_containment :
    (∀ (s : LoopState) (n : Nat) (p : TaskPhase) (msg : String),
      taskPhaseRaw p = .error msg → n ≠ 0 →
      classifyStall n s.last s.stall < maxStalledAttempts →
      loopStep s (.readOk n p) =
        .next { stall := classifyStall n s.last s.stall + 1, last := (n : Int),
                completed := s.completed, navRecoveries := s.navRecoveries + 1 }) ∧
    (∀ inps : List IterInput,
      (∃ s', runLoop initState inps = .running s' ∧ s'.stall < maxStalledAttempts) ∨
      (∃ c, runLoop initState inps = .quota c) ∨
      (∃ st c, runLoop initState inps = .stallAbort st c ∧ maxStalledAttempts ≤ st)) := by
  constructor
  · intro s n p msg herr h0 hlt
    simp [loopStep, h0, Nat.not_le_of_lt hlt, herr]
  · intro inps
    exact runLoop_cases initState inps

/-- Witness for C7: a failing task phase in the first iteration is caught,
counted, and followed by one recovery navigation. -/
theorem loop_exception_containment_witness :
    loopStep initState (.readOk 5 .noValidItems) = .next ⟨1, 5, 0, 1⟩ :=
  loop_exception_containment.1 initState 5 .noValidItems
    "No valid task items with thumbnails found" rfl (by decide) (by decide)

/-- The generalized early-exit behaviour of the polling loop: if poll `i`
(counting from 0) is the first one whose parsed reading meets the
requirement, and the fuel covers it, the loop returns `required` right
there, leaving the remaining readings unpolled — for any carried
`watched` value. -/
theorem monitorLoop_early (R : Nat) :
    ∀ (i : Nat) (w fuel : Nat) (rs : List (Option Nat)) (v : Nat),
      i < fuel → rs[i]? = some (some v) → R ≤ v →
      (∀ j u, j < i → rs[j]? = some (some u) → u < R) →
      monitorLoop R w fuel rs = (R, rs.drop (i + 1)) := by
  intro i
  induction i with
  | zero =>
    intro w fuel rs v hif hv hR _
    match fuel, rs with
    | f + 1, r :: rest =>
      simp at hv
      subst hv
      simp [monitorLoop, hR]
  | succ k ih =>
    intro w fuel rs v hif hv hR hprior
    match fuel, rs with
    | f + 1, r :: rest =>
      have hk : k < f := by omega
      simp at hv
      cases r with
      | none =>
        simpa [monitorLoop] using
          ih w f rest v hk hv hR
            (fun j u hj hget => hprior (j + 1) u (by omega) (by simpa using hget))
      | some u =>
        have hu : u < R := hprior 0 u (by omega) (by simp)
        simpa [monitorLoop, Nat.not_le_of_lt hu] using
          ih u f rest v hk hv hR
            (fun j u' hj hget => hprior (j + 1) u' (by omega) (by simpa using hget))

/-- C4: in the video-progress poll, for every required duration `R` and
every trace of watched-seconds readings, as soon as a poll parses a reading
`≥ R` the function returns — the suffix of readings after that poll is
never consumed, so it does not wait for the full 600-second window — and
the value returned on that early exit is `R` itself, not the (possibly
larger) observed reading. -/
theorem monitor_progress_early_exit (R : Nat) (rs : List (Option Nat))
    (i v : Nat) (hi : i < maxWaitTime) (hv : rs[i]? = some (some v))
    (hR : R ≤ v) (hprior : ∀ j u, j < i → rs[j]? = some (some u) → u < R) :
    monitor_video_progress R rs = R ∧
    monitorLoop R 0 maxWaitTime rs = (R, rs.drop (i + 1)) := by
  have h := monitorLoop_early R i 0 maxWaitTime rs v hi hv hR hprior
  exact ⟨by simp [monitor_video_progress, h], h⟩

/-- Witness for C4: required 10, readings 3, 6, 9, 11 — the poll returns 10
(not 11) at the 4th reading, consuming the whole trace and leaving none of
the later polls of the 600-second window. -/
theorem monitor_progress_early_exit_witness :
    monitor_video_progress 10 [some 3, some 6, some 9, some 11] = 10 ∧
    monitorLoop 10 0 maxWaitTime [some 3, some 6, some 9, some 11] = (10, []) :=
  monitor_progress_early_exit 10 [some 3, some 6, some 9, some 11] 3 11
    (by decide) rfl (by decide)
    (by
      intro j u hj hget
      interval_cases j <;> simp_all <;> omega)

/-- C5: navigation to the task list is idempotent.  When the current URL
already matches the task-list pattern (`"taskList"` occurs in it) the call
changes nothing — in particular no navigation call is issued; otherwise it
issues exactly one navigation to the task-list URL captured at session
start; and since that captured URL itself matches the pattern, a repeated
call is a no-op. -/
theorem navigate_to_task_list_idempotent :
    (∀ (taskUrl : String) (s : NavState),
      strContains s.currentUrl "taskList" = true →
      navigate_to_task_list taskUrl s = s) ∧
    (∀ (taskUrl : String) (s : NavState),
      strContains s.currentUrl "taskList" = false →
      navigate_to_task_list taskUrl s =
        { currentUrl := taskUrl, navCalls := s.navCalls + 1 }) ∧
    (∀ (taskUrl : String) (s : NavState),
      strContains taskUrl "taskList" = true →
      navigate_to_task_list taskUrl (navigate_to_task_list taskUrl s) =
        navigate_to_task_list taskUrl s) := by
  refine ⟨?_, ?_, ?_⟩
  · intro taskUrl s h
    simp [navigate_to_task_list, h]
  · intro taskUrl s h
    simp [navigate_to_task_list, h]
  · intro taskUrl s h
    by_cases hcur : strContains s.currentUrl "taskList" = true
    · simp [navigate_to_task_list, hcur]
    · simp only [navigate_to_task_list, hcur, if_false, Bool.not_eq_true] at *
      simp [h]

/-- Witness for C5: on the task list the call is a no-op; off it, one
navigation is issued, after which a second call is a no-op. -/
theorem navigate_to_task_list_idempotent_witness :
    navigate_to_task_list "https://p/x/taskList/3/1" ⟨"https://p/x/taskList/3/1", 0⟩
      = ⟨"https://p/x/taskList/3/1", 0⟩ ∧
    navigate_to_task_list "https://p/x/taskList/3/1" ⟨"https://p/x/myTask", 0⟩
      = ⟨"https://p/x/taskList/3/1", 1⟩ ∧
    navigate_to_task_list "https://p/x/taskList/3/1"
        (navigate_to_task_list "https://p/x/taskList/3/1" ⟨"https://p/x/myTask", 0⟩)
      = navigate_to_task_list "https://p/x/taskList/3/1" ⟨"https://p/x/myTask", 0⟩ :=
  ⟨navigate_to_task_list_idempotent.1 _ _ (by decide),
   navigate_to_task_list_idempotent.2.1 _ _ (by decide),
   navigate_to_task_list_idempotent.2.2 _ _ (by decide)⟩

/-- A picked control was displayed, enabled, and not reset-labeled. -/
theorem pickControl_props {l : List Control} {c : Control}
    (h : pickControl l = some c) :
    c.displayed = true ∧ c.enabled = true ∧
    strContains (strToLower c.text) "reset" = false := by
  induction l with
  | nil => simp [pickControl] at h
  | cons a rest ih =>
    by_cases hde : a.displayed && a.enabled
    · by_cases hr : strContains (strToLower a.text) "reset"
      · exact ih (by simpa [pickControl, hde, hr] using h)
      · have : a = c := by simpa [pickControl, hde, hr] using h
        subst this
        simp_all
    · exact ih (by simpa [pickControl, hde] using h)

/-- A picked control came from the scanned list. -/
theorem pickControl_mem {l : List Control} {c : Control}
    (h : pickControl l = some c) : c ∈ l := by
  induction l with
  | nil => simp [pickControl] at h
  | cons a rest ih =>
    by_cases hde : a.displayed && a.enabled
    · by_cases hr : strContains (strToLower a.text) "reset"
      · exact List.mem_cons_of_mem a (ih (by simpa [pickControl, hde, hr] using h))
      · have : a = c := by simpa [pickControl, hde, hr] using h
        simp [this]
    · exact List.mem_cons_of_mem a (ih (by simpa [pickControl, hde] using h))

/-- The scan succeeds whenever some element qualifies. -/
theorem pickControl_isSome {l : List Control} {c : Control} (hmem : c ∈ l)
    (hd : c.displayed = true) (he : c.enabled = true)
    (hr : strContains (strToLower c.text) "reset" = false) :
    ∃ c', pickControl l = some c' := by
  induction l with
  | nil => cases hmem
  | cons a rest ih =>
    by_cases hde : a.displayed && a.enabled
    · by_cases har : strContains (strToLower a.text) "reset"
      · rcases List.mem_cons.mp hmem with rfl | hmem'
        · rw [har] at hr; cases hr
        · obtain ⟨c', hc'⟩ := ih hmem'
          exact ⟨c', by simpa [pickControl, hde, har] using hc'⟩
      · exact ⟨a, by simp [pickControl, hde, har]⟩
    · rcases List.mem_cons.mp hmem with rfl | hmem'
      · rw [hd, he] at hde; cases hde rfl
      · obtain ⟨c', hc'⟩ := ih hmem'
        exact ⟨c', by simpa [pickControl, hde] using hc'⟩

/-- Anything `findSubmitControl` returns was accepted by the element scan
of one of the selectors. -/
theorem findSubmitControl_props {page : List Control} {sels : List Selector}
    {c : Control} (h : findSubmitControl page sels = some c) :
    c.displayed = true ∧ c.enabled = true ∧
    strContains (strToLower c.text) "reset" = false := by
  induction sels with
  | nil => simp [findSubmitControl] at h
  | cons sel rest ih =>
    rcases hp : pickControl (page.filter (fun x => selMatches sel x)) with _ | c₀
    · exact ih (by simpa [findSubmitControl, hp] using h)
    · have : c₀ = c := by simpa [findSubmitControl, hp] using h
      subst this
      exact pickControl_props hp

/-- C6: in submit-control selection, a control whose (lowercased) label
contains "reset" is never chosen, whatever selectors it matches; and when
the page has a displayed, enabled, non-reset button whose label contains
"Submit Complete Task", the chosen control is such a button — the
exact-text selector is first in `submit_selectors`, so a control merely
labeled "Submit" cannot be preferred over it. -/
theorem submit_control_selection :
    (∀ (page : List Control) (c : Control),
      submit_completed_task page = some c →
      strContains (strToLower c.text) "reset" = false) ∧
    (∀ page : List Control,
      (∃ c ∈ page, c.tag = "button" ∧
        strContains c.text "Submit Complete Task" = true ∧
        c.displayed = true ∧ c.enabled = true ∧
        strContains (strToLower c.text) "reset" = false) →
      ∃ c', submit_completed_task page = some c' ∧ c'.tag = "button" ∧
        strContains c'.text "Submit Complete Task" = true) := by
  constructor
  · intro page c h
    exact (findSubmitControl_props h).2.2
  · intro page ⟨c, hmem, htag, htext, hd, he, hr⟩
    have hmatch : selMatches (.xpathTagTextContains "button" "Submit Complete Task") c = true := by
      simp [selMatches, htag, htext]
    have hmemf : c ∈ page.filter
        (fun x => selMatches (.xpathTagTextContains "button" "Submit Complete Task") x) :=
      List.mem_filter.mpr ⟨hmem, hmatch⟩
    obtain ⟨c', hc'⟩ := pickControl_isSome hmemf hd he hr
    refine ⟨c', ?_, ?_⟩
    · simp [submit_completed_task, findSubmitControl, submit_selectors, hc']
    · have hmem' := pickControl_mem hc'
      have := (List.mem_filter.mp hmem').2
      simp only [selMatches, Bool.and_eq_true, beq_iff_eq] at this
      exact this

/-- Witness for C6: a page holding, in document order, a displayed enabled
"Reset Task" button that matches the generic class selector, a plain
"Submit" button, and a "Submit Complete Task" button — the last is chosen. -/
theorem submit_control_selection_witness :
    submit_completed_task
        [⟨"button", "Reset Task", [], [], "", true, true, ["[class*=\x27submit\x27]"]⟩,
         ⟨"button", "Submit", [], [], "", true, true, []⟩,
         ⟨"button", "Submit Complete Task", [], [], "", true, true, []⟩]
      = some ⟨"button", "Submit Complete Task", [], [], "", true, true, []⟩ ∧
    strContains (strToLower "Submit Complete Task") "reset" = false ∧
    (submit_completed_task
        [⟨"button", "Reset Task", [], [], "", true, true, ["[class*=\x27submit\x27]"]⟩,
         ⟨"button", "Submit", [], [], "", true, true, []⟩,
         ⟨"button", "Submit Complete Task", [], [], "", true, true, []⟩]).isSome
      = true := by
  refine ⟨by decide, ?_, ?_⟩
  · exact submit_control_selection.1
      [⟨"button", "Reset Task", [], [], "", true, true, ["[class*=\x27submit\x27]"]⟩,
       ⟨"button", "Submit", [], [], "", true, true, []⟩,
       ⟨"button", "Submit Complete Task", [], [], "", true, true, []⟩]
      ⟨"button", "Submit Complete Task", [], [], "", true, true, []⟩ (by decide)
  · obtain ⟨c', hc', -, -⟩ := submit_control_selection.2
      [⟨"button", "Reset Task", [], [], "", true, true, ["[class*=\x27submit\x27]"]⟩,
       ⟨"button", "Submit", [], [], "", true, true, []⟩,
       ⟨"button", "Submit Complete Task", [], [], "", true, true, []⟩]
      ⟨⟨"button", "Submit Complete Task", [], [], "", true, true, []⟩,
        by decide, by decide, by decide, by decide, by decide, by decide⟩
    simp [hc']

/-! ## API-mode loop (`complete_tasks_via_api`, lines 2613-2729)

The loop body issues up to four requests per iteration: `getTaskList`,
`receiveTask`, `taskOrderList` (fallback) and `submitTask`.  Responses are
modelled as data (HTTP status plus the JSON `code` field, and the relevant
payload lists). -/

/-- A `getTaskList` response: `taskNumArr` (the remaining count is its
first entry, 0 when absent, line 2665) and the `list` of task ids. -/
structure TaskListResp where
  status : Nat
  code : Int
  taskNumArr : List Nat
  list : List Nat
  deriving Repr, DecidableEq

/-- A `receiveTask` or `submitTask` response. -/
structure SimpleResp where
  status : Nat
  code : Int
  deriving Repr, DecidableEq

/-- A `taskOrderList` response with the `task_id`s of in-progress orders. -/
structure OrderListResp where
  status : Nat
  code : Int
  lists : List Nat
  deriving Repr, DecidableEq

/-- All responses the environment would give to one loop iteration. -/
structure ApiIterEnv where
  taskList : TaskListResp
  receive : SimpleResp
  orderList : OrderListResp
  submitInProgress : SimpleResp
  submit : SimpleResp
  deriving Repr, DecidableEq

/-- The network actions one run issues, in order. -/
inductive ApiAction where
  | fetchList
  | receive (id : Nat)
  | orderList
  | submit (id : Nat)
  deriving Repr, DecidableEq

/-- How the API loop ended. -/
inductive ApiResult where
  /-- `return False` on a failed `getTaskList` (lines 2657-2663). -/
  | fetchFail
  /-- `break` at line 2670 (list empty or remaining 0), then `return True`. -/
  | done
  /-- The finite trace of responses ran out while the loop was iterating. -/
  | outOfInputs
  deriving Repr, DecidableEq

/-- The fallback actions on a receive failure (lines 2684-2712): query
`taskOrderList`; when it succeeds and is non-empty, submit its first task.
Neither outcome affects control flow — the iteration continues regardless. -/
def fallbackActions (e : ApiIterEnv) : List ApiAction :=
  if e.orderList.status = 200 ∧ e.orderList.code = 1 then
    match e.orderList.lists with
    | [] => []
    | ip :: _ => [.submit ip]
  else []

/-- The `while True` loop of `complete_tasks_via_api` (lines 2647-2728)
over a finite trace of per-iteration responses, returning how it ended and
the network actions issued. -/
def apiLoop : List ApiIterEnv → ApiResult × List ApiAction
  | [] => (.outOfInputs, [])
  | e :: rest =>
    if e.taskList.status ≠ 200 ∨ e.taskList.code ≠ 1 then
      (.fetchFail, [.fetchList])
    else
      match e.taskList.list with
      | [] => (.done, [.fetchList])
      | tid :: _ =>
        if e.taskList.taskNumArr.headD 0 = 0 then
          (.done, [.fetchList])
        else if e.receive.status ≠ 200 ∨ e.receive.code ≠ 1 then
          let r := apiLoop rest
          (r.1, .fetchList :: .receive tid :: .orderList :: (fallbackActions e ++ r.2))
        else
          let r := apiLoop rest
          (r.1, .fetchList :: .receive tid :: .submit tid :: r.2)

/-- The return value of `complete_tasks_via_api`: `True` when the loop
broke out (line 2729), `False` on a failed task-list fetch. -/
def complete_tasks_via_api (envs : List ApiIterEnv) : Option Bool :=
  match (apiLoop envs).1 with
  | .fetchFail => some false
  | .done => some true
  | .outOfInputs => none

/-- The gate in `run` (line 2743): the downstream withdrawal / screenshot /
messaging phases execute iff `method() or self.complete_all_steps`. -/
def runProceedsDownstream (methodResult completeAllSteps : Bool) : Bool :=
  methodResult || completeAllSteps

/-! ## CLI entry point (`main`, lines 2763-2790) -/

/-- How the `try` body of `main` (bot construction plus `run` or
`complete_tasks_via_api`) finished. -/
inductive MainBody where
  | completed
  /-- `KeyboardInterrupt` was raised (user interrupt). -/
  | interrupted
  /-- Any other unhandled exception. -/
  | failed (msg : String)
  deriving Repr, DecidableEq

/-- The exit code of `main` (lines 2771-2790): `except KeyboardInterrupt`
only logs and falls through to `return 0`; `except Exception` returns 1;
the non-raising path returns 0. -/
def main (b : MainBody) : Nat :=
  match b with
  | .completed => 0
  | .interrupted => 0
  | .failed _ => 1

/-- A processing iteration (fetch ok, list non-empty, remaining non-zero)
never halts the API loop: the result is that of the remaining trace,
whether or not receive/submit succeeded. -/
theorem apiLoop_processing_fst (e : ApiIterEnv) (rest : List ApiIterEnv)
    (hs : e.taskList.status = 200) (hc : e.taskList.code = 1)
    (hl : e.taskList.list ≠ []) (hr : e.taskList.taskNumArr.headD 0 ≠ 0) :
    (apiLoop (e :: rest)).1 = (apiLoop rest).1 := by
  rcases hcons : e.taskList.list with _ | ⟨tid, tl⟩
  · exact absurd hcons hl
  · have hcond : ¬ (e.taskList.status ≠ 200 ∨ e.taskList.code ≠ 1) := by
      simp [hs, hc]
    have hr' : ¬ e.taskList.taskNumArr.head?.getD 0 = 0 := by
      simpa [List.headD_eq_head?] using hr
    by_cases hrecv : e.receive.status ≠ 200 ∨ e.receive.code ≠ 1 <;>
      simp [apiLoop, hcond, hcons, hr', hrecv]

/-- C9: the API-mode loop applies no stall/retry ceiling.  On a
`receiveTask` failure the iteration queries the in-progress listing
(`taskOrderList`) and, when that succeeds with a non-empty list, submits
its first task, then continues the outer loop unconditionally; any finite
run of processing iterations — in particular arbitrarily many consecutive
failures — leaves the result that of the remaining trace; and the loop
halts exactly on a failed task-list fetch (non-200 status or code ≠ 1,
returning `fetchFail`) or on an empty task list / zero remaining count
(`done`). -/
theorem api_no_stall_ceiling :
    (∀ (e : ApiIterEnv) (rest : List ApiIterEnv) (tid : Nat) (tl : List Nat),
      e.taskList.status = 200 → e.taskList.code = 1 →
      e.taskList.list = tid :: tl → e.taskList.taskNumArr.headD 0 ≠ 0 →
      (e.receive.status ≠ 200 ∨ e.receive.code ≠ 1) →
      apiLoop (e :: rest) =
        ((apiLoop rest).1,
          .fetchList :: .receive tid :: .orderList ::
            (fallbackActions e ++ (apiLoop rest).2))) ∧
    (∀ (e : ApiIterEnv) (ip : Nat) (l : List Nat),
      e.orderList.status = 200 → e.orderList.code = 1 →
      e.orderList.lists = ip :: l → fallbackActions e = [.submit ip]) ∧
    (∀ (e : ApiIterEnv) (rest : List ApiIterEnv),
      (e.taskList.status ≠ 200 ∨ e.taskList.code ≠ 1) →
      (apiLoop (e :: rest)).1 = .fetchFail) ∧
    (∀ (e : ApiIterEnv) (rest : List ApiIterEnv),
      e.taskList.status = 200 → e.taskList.code = 1 →
      (e.taskList.list = [] ∨ e.taskList.taskNumArr.headD 0 = 0) →
      (apiLoop (e :: rest)).1 = .done) ∧
    (∀ (es rest : List ApiIterEnv),
      (∀ e ∈ es, e.taskList.status = 200 ∧ e.taskList.code = 1 ∧
        e.taskList.list ≠ [] ∧ e.taskList.taskNumArr.headD 0 ≠ 0) →
      (apiLoop (es ++ rest)).1 = (apiLoop rest).1) := by
  refine ⟨?_, ?_, ?_, ?_, ?_⟩
  · intro e rest tid tl hs hc hcons hr hrecv
    have hcond : ¬ (e.taskList.status ≠ 200 ∨ e.taskList.code ≠ 1) := by
      simp [hs, hc]
    have hr' : ¬ e.taskList.taskNumArr.head?.getD 0 = 0 := by
      simpa [List.headD_eq_head?] using hr
    simp [apiLoop, hcond, hcons, hr', hrecv]
  · intro e ip l hs hc hlists
    simp [fallbackActions, hs, hc, hlists]
  · intro e rest hbad
    simp [apiLoop, hbad]
  · intro e rest hs hc hstop
    have hcond : ¬ (e.taskList.status ≠ 200 ∨ e.taskList.code ≠ 1) := by
      simp [hs, hc]
    rcases hstop with hnil | hzero
    · simp [apiLoop, hcond, hnil]
    · rcases hcons : e.taskList.list with _ | ⟨tid, tl⟩
      · simp [apiLoop, hcond, hcons]
      · have hz' : e.taskList.taskNumArr.head?.getD 0 = 0 := by
          simpa [List.headD_eq_head?] using hzero
        simp [apiLoop, hcond, hcons, hz']
  · intro es rest hall
    induction es with
    | nil => rfl
    | cons e es ih =>
      obtain ⟨hs, hc, hl, hr⟩ := hall e (List.mem_cons_self e es)
      have := apiLoop_processing_fst e (es ++ rest) hs hc hl hr
      rw [List.cons_append, this]
      exact ih (fun x hx => hall x (List.mem_cons_of_mem e hx))

/-- Witness for C9: one receive-failing iteration in front of a trace, the
fallback submitting in-progress task 9, a failed fetch, an empty list, and
two consecutive receive failures never aborting the run. -/
theorem api_no_stall_ceiling_witness :
    apiLoop [⟨⟨200, 1, [5], [7, 8]⟩, ⟨500, 0⟩, ⟨200, 1, [9]⟩, ⟨200, 1⟩, ⟨200, 1⟩⟩,
             ⟨⟨200, 1, [5], []⟩, ⟨200, 1⟩, ⟨200, 1, []⟩, ⟨200, 1⟩, ⟨200, 1⟩⟩]
      = ((apiLoop [⟨⟨200, 1, [5], []⟩, ⟨200, 1⟩, ⟨200, 1, []⟩, ⟨200, 1⟩, ⟨200, 1⟩⟩]).1,
          .fetchList :: .receive 7 :: .orderList ::
            (fallbackActions
              ⟨⟨200, 1, [5], [7, 8]⟩, ⟨500, 0⟩, ⟨200, 1, [9]⟩, ⟨200, 1⟩, ⟨200, 1⟩⟩ ++
              (apiLoop [⟨⟨200, 1, [5], []⟩, ⟨200, 1⟩, ⟨200, 1, []⟩, ⟨200, 1⟩, ⟨200, 1⟩⟩]).2)) ∧
    fallbackActions ⟨⟨200, 1, [5], [7, 8]⟩, ⟨500, 0⟩, ⟨200, 1, [9]⟩, ⟨200, 1⟩, ⟨200, 1⟩⟩
      = [.submit 9] ∧
    (apiLoop [⟨⟨404, 1, [5], [7]⟩, ⟨200, 1⟩, ⟨200, 1, []⟩, ⟨200, 1⟩, ⟨200, 1⟩⟩]).1
      = .fetchFail ∧
    (apiLoop [⟨⟨200, 1, [5], []⟩, ⟨200, 1⟩, ⟨200, 1, []⟩, ⟨200, 1⟩, ⟨200, 1⟩⟩]).1
      = .done ∧
    (apiLoop ([⟨⟨200, 1, [5], [7, 8]⟩, ⟨500, 0⟩, ⟨200, 1, [9]⟩, ⟨200, 1⟩, ⟨200, 1⟩⟩,
               ⟨⟨200, 1, [5], [7, 8]⟩, ⟨500, 0⟩, ⟨200, 1, [9]⟩, ⟨200, 1⟩, ⟨200, 1⟩⟩] ++
              [⟨⟨404, 1, [5], [7]⟩, ⟨200, 1⟩, ⟨200, 1, []⟩, ⟨200, 1⟩, ⟨200, 1⟩⟩])).1
      = (apiLoop [⟨⟨404, 1, [5], [7]⟩, ⟨200, 1⟩, ⟨200, 1, []⟩, ⟨200, 1⟩, ⟨200, 1⟩⟩]).1 :=
  ⟨api_no_stall_ceiling.1 _ _ 7 [8] rfl rfl rfl (by decide) (by decide),
   api_no_stall_ceiling.2.1 _ 9 [] rfl rfl rfl,
   api_no_stall_ceiling.2.2.1 _ _ (by decide),
   api_no_stall_ceiling.2.2.2.1 _ _ rfl rfl (Or.inl rfl),
   api_no_stall_ceiling.2.2.2.2 _ _ (by decide)⟩

/-- C10: `complete_tasks_via_api` returns true whenever its loop ends with
the task list empty or the remaining count 0 — including runs in which no
task was received or submitted (the action trace is a single list fetch) —
and returns false exactly when the task-list fetch fails; hence in `run`,
API mode passes the downstream gate even with nothing completed, while
browser mode with zero completions returns false at the quota exit and,
with `complete_all_steps` unset, fails the gate. -/
theorem api_return_gates_downstream :
    (∀ envs, (apiLoop envs).1 = .done → complete_tasks_via_api envs = some true) ∧
    (∀ envs, (apiLoop envs).1 = .fetchFail →
      complete_tasks_via_api envs = some false) ∧
    apiLoop [⟨⟨200, 1, [5], []⟩, ⟨200, 1⟩, ⟨200, 1, []⟩, ⟨200, 1⟩, ⟨200, 1⟩⟩]
      = (.done, [.fetchList]) ∧
    complete_tasks_via_api
        [⟨⟨200, 1, [5], []⟩, ⟨200, 1⟩, ⟨200, 1, []⟩, ⟨200, 1⟩, ⟨200, 1⟩⟩]
      = some true ∧
    runProceedsDownstream true false = true ∧
    start_tasks [.readOk 0 .myTaskSubmitVideoOk] = some false ∧
    runProceedsDownstream false false = false := by
  refine ⟨?_, ?_, rfl, rfl, rfl, rfl, rfl⟩
  · intro envs h
    simp [complete_tasks_via_api, h]
  · intro envs h
    simp [complete_tasks_via_api, h]

/-- Witness for C10: a zero-remaining fetch yields true, a failed fetch
yields false. -/
theorem api_return_gates_downstream_witness :
    complete_tasks_via_api
        [⟨⟨200, 1, [0], [7]⟩, ⟨200, 1⟩, ⟨200, 1, []⟩, ⟨200, 1⟩, ⟨200, 1⟩⟩]
      = some true ∧
    complete_tasks_via_api
        [⟨⟨404, 0, [5], [7]⟩, ⟨200, 1⟩, ⟨200, 1, []⟩, ⟨200, 1⟩, ⟨200, 1⟩⟩]
      = some false :=
  ⟨api_return_gates_downstream.1 _ (by decide),
   api_return_gates_downstream.2.1 _ (by decide)⟩

/-- C8 (counterexample): the claim says the CLI exits with code 1 on a
user interrupt; but `main` catches `KeyboardInterrupt`, only logs, and
falls through to `return 0` — the exit code on interrupt is 0, not 1. -/
theorem main_interrupt_exit_code :
    main .interrupted = 0 ∧ main .interrupted ≠ 1 :=
  ⟨rfl, by decide⟩

/-- C8 (amended): the CLI entry point returns exit code 0 when the run
succeeds and likewise 0 on a user interrupt (`KeyboardInterrupt` is caught
and only logged); it returns 1 on any other unhandled exception. -/
theorem main_exit_codes :
    main .completed = 0 ∧ main .interrupted = 0 ∧
    ∀ msg, main (.failed msg) = 1 :=
  ⟨rfl, rfl, fun _ => rfl⟩

end AdWatcher
